import Mathlib

/-!
Shallow embedding of the OAuth 2.0 authorization layer of the `mcp-daktela`
server: the target-URL validator, the JWT token codec, the token-endpoint
handlers, and the credential-context middleware
(`src/mcp_daktela/auth.py`, `src/mcp_daktela/oauth.py`,
`src/mcp_daktela/config.py`).

Python strings are modelled as Lean `String`; Python `int` timestamps as
`Int`; Python exceptions as `Except` error values.  The third-party JWT
library (`PyJWT`) is modelled by its contract: a signed token is the claim
set together with the secret it was signed with, and `jwt.decode` succeeds
exactly when the presented secret matches and the `exp` claim has not
elapsed.  The `contextvars.ContextVar` holding the per-request credential
config is task-local in `asyncio`, so each logical tool call owns an
independent slot; it is modelled as explicit state threaded through one
call (`slot` in, `slot` out).
-/

deriving instance DecidableEq for Except

namespace McpDaktela

/-! ## Python string primitives -/

/-- Python `str.strip()` (whitespace from both ends). -/
def pyStrip (s : String) : String :=
  String.mk (((s.toList.dropWhile Char.isWhitespace).reverse.dropWhile
    Char.isWhitespace).reverse)

/-- Python `str.rstrip("/")`: drop every trailing slash. -/
def pyRstripSlash (s : String) : String :=
  String.mk ((s.toList.reverse.dropWhile (fun c => c = '/')).reverse)

/-- Python `str.lower()` (ASCII case fold suffices for the inputs here). -/
def pyLower (s : String) : String :=
  String.mk (s.toList.map Char.toLower)

/-- Python `str.endswith(t)`. -/
def pyEndsWith (s t : String) : Bool :=
  t.toList.reverse.isPrefixOf s.toList.reverse

/-- Python `str.split(c)` on a single-character separator. -/
def splitChar (c : Char) : List Char → List (List Char)
  | [] => [[]]
  | x :: xs =>
    match splitChar c xs with
    | [] => if x = c then [[], []] else [[x]]
    | g :: gs => if x = c then [] :: g :: gs else (x :: g) :: gs

/-! ## `urllib.parse.urlparse`, restricted to the fields the source reads

`_validate_url` only consults `parsed.scheme` and `parsed.hostname`; the
counterexample for C7 additionally needs the path component.  The model
follows CPython `urllib.parse.urlsplit`: the scheme is split off at the
first `:` when the prefix is a well-formed scheme, the netloc follows a
leading `//` and runs to the first of `/?#`, and the hostname is the part
of the netloc after the last `@`, bracket-delimited for IPv6, otherwise cut
at the first `:` (the port), lowercased.  An absent hostname (`None` in
Python, coerced by the source via `or ""`) is the empty string. -/

/-- Characters allowed in a URL scheme after the leading letter. -/
def isSchemeChar (c : Char) : Bool :=
  c.isAlpha || c.isDigit || c = '+' || c = '-' || c = '.'

/-- Split `url` into `(scheme, rest)` as `urlsplit` does. -/
def splitScheme (l : List Char) : List Char × List Char :=
  match l.findIdx? (fun c => c = ':') with
  | none => ([], l)
  | some i =>
    if 0 < i then
      let pre := l.take i
      if (pre.headD ' ').isAlpha && pre.all isSchemeChar then
        (pre.map Char.toLower, l.drop (i + 1))
      else ([], l)
    else ([], l)

/-- From the post-scheme remainder, split off the netloc (after `//`). -/
def splitNetloc (l : List Char) : List Char × List Char :=
  match l with
  | '/' :: '/' :: rest =>
    (rest.takeWhile (fun c => ¬(c = '/' ∨ c = '?' ∨ c = '#')), rest.dropWhile (fun c => ¬(c = '/' ∨ c = '?' ∨ c = '#')))
  | _ => ([], l)

/-- Hostname of a netloc: after the last `@`; inside `[...]` for IPv6;
otherwise up to the first `:` (port separator); lowercased. -/
def netlocHostname (netloc : List Char) : List Char :=
  let hostinfo := ((netloc.reverse.takeWhile (fun c => c ≠ '@'))).reverse
  let host :=
    if hostinfo.contains '[' then
      ((hostinfo.dropWhile (fun c => c ≠ '[')).drop 1).takeWhile (fun c => c ≠ ']')
    else
      hostinfo.takeWhile (fun c => c ≠ ':')
  host.map Char.toLower

/-- `urlparse(u).scheme`. -/
def urlScheme (s : String) : String :=
  String.mk (splitScheme s.toList).1

/-- `urlparse(u).hostname or ""`, lowercased (the Python property already
lowercases; the source lowercases once more, which is idempotent). -/
def urlHostname (s : String) : String :=
  String.mk (netlocHostname (splitNetloc (splitScheme s.toList).2).1)

/-- `urlparse(u).path`: the remainder after the netloc, up to the first
`?` or `#`. -/
def urlPath (s : String) : String :=
  String.mk (((splitNetloc (splitScheme s.toList).2).2).takeWhile
    (fun c => ¬(c = '?' ∨ c = '#')))

/-! ## `_get_allowed_domains` and `_validate_url` (`auth.py`) -/

/-- Default allowed-domain set (`_DEFAULT_ALLOWED_DOMAINS`). -/
def defaultAllowedDomains : List String := ["daktela.com"]

/-- `_get_allowed_domains()`, with the `ALLOWED_DAKTELA_DOMAINS`
environment value passed explicitly. -/
def getAllowedDomains (env : String) : List String :=
  if pyStrip env ≠ "" then
    (splitChar ',' env.toList).filterMap (fun d =>
      let t := pyStrip (String.mk d)
      if t = "" then none else some (pyLower t))
  else defaultAllowedDomains

/-- `url.strip().rstrip("/")` — the normalization applied before parsing. -/
def stripUrl (url : String) : String := pyRstripSlash (pyStrip url)

/-- `hostname.replace(".", "").isdigit() or ":" in hostname` — the literal
IPv4/IPv6 test of `_validate_url`. -/
def isIpLikeHostname (h : String) : Bool :=
  (let t := h.toList.filter (fun c => c ≠ '.')
   t ≠ [] && t.all Char.isDigit) || h.toList.contains ':'

/-- `any(hostname == d or hostname.endswith("." + d) for d in allowed)`. -/
def hostnameAllowed (allowed : List String) (h : String) : Bool :=
  allowed.any (fun d => h = d || pyEndsWith h ("." ++ d))

/-- The `Allowed domains: *.a, *.b` suffix listing used in the error. -/
def allowedDomainsStr (allowed : List String) : String :=
  String.intercalate ", " (allowed.map (fun d => "*." ++ d))

/-- Scheme-specific error message of `_validate_url`. -/
def schemeErrorMsg (scheme : String) : String :=
  "X-Daktela-Url must use HTTPS (got \x27" ++
    (if scheme = "" then "empty" else scheme) ++ "\x27)"

/-- Domain-membership error message of `_validate_url`. -/
def notAllowedMsg (allowed : List String) (hostname : String) : String :=
  "X-Daktela-Url hostname \x27" ++ hostname ++ "\x27 is not allowed. " ++
    "Allowed domains: " ++ allowedDomainsStr allowed

/-- `_validate_url(url)` with the allowed-domain set passed explicitly
(the source reads it from `_get_allowed_domains()`). -/
def validateUrl (allowed : List String) (url : String) : Except String String :=
  let u := stripUrl url
  let scheme := urlScheme u
  if scheme ≠ "https" then
    .error (schemeErrorMsg scheme)
  else
    let hostname := pyLower (urlHostname u)
    if hostname = "" then
      .error "X-Daktela-Url has no hostname"
    else if isIpLikeHostname hostname then
      .error "X-Daktela-Url must use a domain name, not an IP address"
    else if hostnameAllowed allowed hostname then
      .ok u
    else
      .error (notAllowedMsg allowed hostname)

/-! ## `_parse_daktela_datetime` (`oauth.py`)

`datetime.strptime(dt_str, "%Y-%m-%d %H:%M:%S")` followed by
`.replace(tzinfo=timezone.utc).timestamp()`.  CPython `_strptime` compiles
the format to a regex: `%Y` is exactly four digits, the two-digit fields
are one or two digits constrained to their ranges, and the literal space
matches a whitespace run; `datetime(...)` then validates the day against
the month length.  The timestamp is seconds since the Unix epoch with the
naive fields read as UTC. -/

/-- Numeric value of a digit run. -/
def digitsToNat (l : List Char) : Nat :=
  l.foldl (fun a c => a * 10 + (c.toNat - 48)) 0

/-- A one-or-two-digit field with an inclusive value range. -/
def flexField (l : List Char) (lo hi : Nat) : Option Nat :=
  if l.length = 1 ∨ l.length = 2 then
    let v := digitsToNat l
    if lo ≤ v ∧ v ≤ hi then some v else none
  else none

/-- Expect a literal character at the head of the remainder. -/
def expectChar (c : Char) : List Char → Option (List Char)
  | [] => none
  | x :: xs => if x = c then some xs else none

/-- Maximal digit run at the head, and the remainder. -/
def takeNum (l : List Char) : List Char × List Char :=
  (l.takeWhile Char.isDigit, l.dropWhile Char.isDigit)

/-- Gregorian leap-year rule, as `datetime` uses it. -/
def isLeapYear (y : Nat) : Bool :=
  y % 4 = 0 && (y % 100 ≠ 0 || y % 400 = 0)

/-- Length of month `m` in year `y`. -/
def daysInMonth (y m : Nat) : Nat :=
  if m = 2 then (if isLeapYear y then 29 else 28)
  else if m = 4 ∨ m = 6 ∨ m = 9 ∨ m = 11 then 30
  else 31

/-- Days from 1970-01-01 to the civil date `y-m-d` (proleptic Gregorian,
`y ≥ 1`). -/
def daysFromCivil (y m d : Nat) : Int :=
  let yShift : Nat := if m ≤ 2 then y - 1 else y
  let era := yShift / 400
  let yoe := yShift % 400
  let mp := if 2 < m then m - 3 else m + 9
  let doy := (153 * mp + 2) / 5 + (d - 1)
  let doe := yoe * 365 + yoe / 4 - yoe / 100 + doy
  (era * 146097 + doe : Int) - 719468

/-- `strptime(s, "%Y-%m-%d %H:%M:%S")` field extraction. -/
def parseNaiveDatetime (s : String) : Option (Nat × Nat × Nat × Nat × Nat × Nat) := do
  let (ys, r) := takeNum s.toList
  guard (ys.length = 4)
  let y := digitsToNat ys
  let r ← expectChar '-' r
  let (ms, r) := takeNum r
  let m ← flexField ms 1 12
  let r ← expectChar '-' r
  let (ds, r) := takeNum r
  let d ← flexField ds 1 31
  guard (r.takeWhile Char.isWhitespace ≠ [])
  let r := r.dropWhile Char.isWhitespace
  let (hs, r) := takeNum r
  let hh ← flexField hs 0 23
  let r ← expectChar ':' r
  let (mins, r) := takeNum r
  let mi ← flexField mins 0 59
  let r ← expectChar ':' r
  let (ss, r) := takeNum r
  let sec ← flexField ss 0 59
  guard (r = [])
  pure (y, m, d, hh, mi, sec)

/-- `_parse_daktela_datetime(dt_str)`: parse, validate the date, and read
the fields as UTC; any failure is the `ValueError`/`TypeError` the callers
catch. -/
def parseDaktelaDatetime (s : String) : Except Unit Int :=
  match parseNaiveDatetime s with
  | none => .error ()
  | some (y, m, d, hh, mi, sec) =>
    if 1 ≤ y ∧ d ≤ daysInMonth y m then
      .ok (daysFromCivil y m d * 86400 + ((hh * 3600 + mi * 60 + sec : Nat) : Int))
    else .error ()

/-- Modelled from the spec: "backend returns a naive local timestamp
string; must be interpreted in the backend's configured timezone and
converted to an absolute instant".  The backend's configured timezone is
given as its UTC offset in seconds (east positive); the naive fields are
read in that timezone, so the absolute instant is the naive-as-UTC reading
minus the offset.  The source has no such timezone input. -/
def specParseInConfiguredTz (tzOffsetSeconds : Int) (s : String) : Except Unit Int :=
  (parseDaktelaDatetime s).map (fun t => t - tzOffsetSeconds)

/-! ## Token codec (`oauth.py` `_sign_jwt` / `_decode_jwt`, PyJWT model)

A claim set is one record covering the union of the keys the source ever
writes; a key a given token variant does not carry has the default value
that Python `payload.get(key, default)` would return.  A token string is
either garbage (`malformed`) or the claim set plus the signing secret;
`jwt.decode` succeeds exactly on a well-formed token signed with the
presented secret whose `exp` has not elapsed (PyJWT checks the signature
before `exp`). -/

structure Claims where
  type : String := ""
  exp : Int := 0
  daktelaUrl : String := ""
  daktelaAccessToken : String := ""
  daktelaAccessExp : Int := 0
  daktelaUsername : String := ""
  daktelaPassword : String := ""
  codeChallenge : String := ""
  clientId : String := ""
  redirectUri : String := ""
deriving DecidableEq

inductive TokenStr
  | malformed (raw : String)
  | signed (claims : Claims) (secret : String)
deriving DecidableEq

inductive JwtError
  | decodeFailed
  | invalidSignature
  | expired
  | wrongType (expected got : String)
deriving DecidableEq

/-- `str(e)` for the exceptions the token endpoint catches. -/
def jwtErrStr : JwtError → String
  | .decodeFailed => "Invalid token"
  | .invalidSignature => "Signature verification failed"
  | .expired => "Signature has expired"
  | .wrongType expected got =>
      "Expected token type \x27" ++ expected ++ "\x27, got \x27" ++ got ++ "\x27"

/-- `jwt.decode(token, secret, algorithms=["HS256"])` (PyJWT contract). -/
def jwtLibDecode (secret : String) (now : Int) (t : TokenStr) : Except JwtError Claims :=
  match t with
  | .malformed _ => .error .decodeFailed
  | .signed c s =>
    if s ≠ secret then .error .invalidSignature
    else if c.exp ≤ now then .error .expired
    else .ok c

inductive OAuthFatal
  | missingSecret
deriving DecidableEq

inductive DecodeErr
  | fatal (e : OAuthFatal)
  | lib (e : JwtError)
deriving DecidableEq

/-- `_sign_jwt(payload)`: `_get_jwt_secret()` raises on an empty secret,
otherwise the payload is signed. -/
def signJwt (secret : String) (c : Claims) : Except OAuthFatal TokenStr :=
  if secret = "" then .error .missingSecret else .ok (.signed c secret)

/-- `_decode_jwt(token, expected_type)`: fetch the secret (fatal when
absent), `jwt.decode`, then the `type`-claim check (raised as
`jwt.InvalidTokenError`). -/
def decodeJwt (secret : String) (now : Int) (expectedType : String) (t : TokenStr) :
    Except DecodeErr Claims :=
  if secret = "" then .error (.fatal .missingSecret)
  else
    match jwtLibDecode secret now t with
    | .error e => .error (.lib e)
    | .ok c =>
      if c.type ≠ expectedType then .error (.lib (.wrongType expectedType c.type))
      else .ok c

def authCodeLifetime : Int := 300

def refreshTokenLifetime : Int := 30 * 86400

/-! ## Backend login bridge (`_daktela_login`) -/

inductive LoginResult
  | failure (msg : String)
  | success (accessToken expirationDate : String)
deriving DecidableEq

/-- Raw outcome of the HTTP POST to `/api/v6/login.json`. -/
inductive HttpOutcome
  | connectError
  | response (status : Int) (accessToken expirationDate : String)
deriving DecidableEq

/-- `_daktela_login`'s classification of the HTTP outcome: connection
errors, non-200 statuses, and responses without an `accessToken` become
error strings; otherwise the result payload is returned. -/
def daktelaLogin : HttpOutcome → LoginResult
  | .connectError => .failure "Could not connect to Daktela instance"
  | .response status atk expDate =>
    if status ≠ 200 then .failure "Invalid username or password"
    else if atk = "" then .failure "Unexpected response from Daktela API"
    else .success atk expDate

/-! ## Token endpoint (`handle_token` and helpers) -/

/-- A token-endpoint JSON response: either the issued pair (with
`token_type` fixed to `"Bearer"`) or an `{error, error_description}`
body with status 400. -/
inductive TokenResp
  | issued (accessToken refreshToken : TokenStr) (expiresIn : Int)
  | oauthError (error description : String)
deriving DecidableEq

/-- The form fields the token endpoint reads (`form.get(k, "")`; a token
field is `none` when the string is empty and may otherwise be any token
string, well-formed or not). -/
structure TokenForm where
  grantType : String := ""
  code : Option TokenStr := none
  codeVerifier : String := ""
  redirectUri : String := ""
  refreshToken : Option TokenStr := none
deriving DecidableEq

/-- `_issue_token_response(daktela_url, daktela_access_token, access_exp,
username, password)`. -/
def issueTokenResponse (secret : String) (now : Int) (daktelaUrl daktelaAccessToken : String)
    (accessExp : Int) (username password : String) : Except OAuthFatal TokenResp :=
  match signJwt secret
      { type := "access_token", daktelaUrl := daktelaUrl,
        daktelaAccessToken := daktelaAccessToken, exp := accessExp } with
  | .error e => .error e
  | .ok access =>
    match signJwt secret
        { type := "refresh_token", daktelaUrl := daktelaUrl,
          daktelaUsername := username, daktelaPassword := password,
          exp := now + refreshTokenLifetime } with
    | .error e => .error e
    | .ok refresh => .ok (.issued access refresh (max 0 (accessExp - now)))

/-- `_handle_auth_code_exchange(form)`.  `digest` is the PKCE transform
`urlsafe_b64encode(sha256(verifier.encode("ascii")).digest()).rstrip(b"=")`
(SHA-256 itself is the external `hashlib`). -/
def handleAuthCodeExchange (digest : String → String) (secret : String) (now : Int)
    (form : TokenForm) : Except OAuthFatal TokenResp :=
  match form.code with
  | none => .ok (.oauthError "invalid_request" "code and code_verifier required")
  | some code =>
    if form.codeVerifier = "" then
      .ok (.oauthError "invalid_request" "code and code_verifier required")
    else
      match decodeJwt secret now "auth_code" code with
      | .error (.fatal e) => .error e
      | .error (.lib e) => .ok (.oauthError "invalid_grant" (jwtErrStr e))
      | .ok payload =>
        if digest form.codeVerifier ≠ payload.codeChallenge then
          .ok (.oauthError "invalid_grant" "PKCE verification failed")
        else if form.redirectUri ≠ "" ∧ form.redirectUri ≠ payload.redirectUri then
          .ok (.oauthError "invalid_grant" "redirect_uri mismatch")
        else
          issueTokenResponse secret now payload.daktelaUrl payload.daktelaAccessToken
            payload.daktelaAccessExp payload.daktelaUsername payload.daktelaPassword

/-- `_handle_refresh(form)`, with the backend login call passed in as a
function of `(daktela_url, username, password)`. -/
def handleRefresh (secret : String) (now : Int)
    (login : String → String → String → LoginResult) (form : TokenForm) :
    Except OAuthFatal TokenResp :=
  match form.refreshToken with
  | none => .ok (.oauthError "invalid_request" "refresh_token required")
  | some rt =>
    match decodeJwt secret now "refresh_token" rt with
    | .error (.fatal e) => .error e
    | .error (.lib e) => .ok (.oauthError "invalid_grant" (jwtErrStr e))
    | .ok payload =>
      match login payload.daktelaUrl payload.daktelaUsername payload.daktelaPassword with
      | .failure msg => .ok (.oauthError "invalid_grant" msg)
      | .success atk expStr =>
        let accessExp :=
          match parseDaktelaDatetime expStr with
          | .ok e => e
          | .error _ => now + 3600
        issueTokenResponse secret now payload.daktelaUrl atk accessExp
          payload.daktelaUsername payload.daktelaPassword

/-- `handle_token(request)`: dispatch on `grant_type`. -/
def handleToken (digest : String → String) (secret : String) (now : Int)
    (login : String → String → String → LoginResult) (form : TokenForm) :
    Except OAuthFatal TokenResp :=
  if form.grantType = "authorization_code" then
    handleAuthCodeExchange digest secret now form
  else if form.grantType = "refresh_token" then
    handleRefresh secret now login form
  else
    .ok (.oauthError "unsupported_grant_type" ("Unsupported: " ++ form.grantType))

/-! ## Authorization endpoint (`handle_authorize`, POST branch) -/

structure AuthorizeForm where
  daktelaUrl : String := ""
  username : String := ""
  password : String := ""
  redirectUri : String := ""
  clientId : String := ""
  codeChallenge : String := ""
  codeChallengeMethod : String := "S256"
  state : String := ""
deriving DecidableEq

/-- Outcome of the POST branch: a re-rendered form carrying the error and
the preserved URL/username, or a 302 redirect delivering the signed auth
code together with the client's `redirect_uri` and `state`. -/
inductive AuthorizeResult
  | formError (error daktelaUrl username : String)
  | redirect (code : TokenStr) (redirectUri state : String)
deriving DecidableEq

/-- The POST branch of `handle_authorize`. -/
def handleAuthorizePost (allowed : List String) (secret : String) (now : Int)
    (login : String → String → String → LoginResult) (form : AuthorizeForm) :
    Except OAuthFatal AuthorizeResult :=
  let daktelaUrl := pyStrip form.daktelaUrl
  let username := pyStrip form.username
  if form.redirectUri = "" then
    .ok (.formError "Missing redirect_uri" daktelaUrl username)
  else if form.codeChallengeMethod ≠ "S256" then
    .ok (.formError "Only S256 code challenge method is supported" daktelaUrl username)
  else
    match validateUrl allowed daktelaUrl with
    | .error e => .ok (.formError e daktelaUrl username)
    | .ok url =>
      match login url username form.password with
      | .failure msg => .ok (.formError msg url username)
      | .success atk expStr =>
        let accessExp :=
          match parseDaktelaDatetime expStr with
          | .ok e => e
          | .error _ => now + 3600
        match signJwt secret
            { type := "auth_code", daktelaUrl := url,
              daktelaAccessToken := atk, daktelaAccessExp := accessExp,
              daktelaUsername := username, daktelaPassword := form.password,
              codeChallenge := form.codeChallenge, clientId := form.clientId,
              redirectUri := form.redirectUri, exp := now + authCodeLifetime } with
        | .error e => .error e
        | .ok code => .ok (.redirect code form.redirectUri form.state)

/-! ## Credential-context middleware (`auth.py`) and `get_config`
(`config.py`)

`_request_config` is a task-local `ContextVar[dict | None]` with default
`None`: every logical tool call owns an independent slot, modelled as the
`slot` value threaded through one `on_call_tool` run.  The downstream
business logic (`call_next`) is a function of the slot it observes; its
exceptions are `Except.error` results.  `set`/`try`/`finally`/`reset`
restores the entry value of the slot whichever way the body exits. -/

inductive Config
  | userPass (url username password : String)
  | urlToken (url tok : String)
deriving DecidableEq

inductive MwError
  | valueError (msg : String)
  | jwtError (e : JwtError)
deriving DecidableEq

/-- The `authorization` header value: any string either starts with
`"Bearer "` (carrying a token string) or does not (absent = `""`). -/
inductive AuthHeaderVal
  | noBearer (raw : String)
  | bearer (tok : TokenStr)
deriving DecidableEq

structure Headers where
  authorization : AuthHeaderVal := .noBearer ""
  xDaktelaUrl : String := ""
  xDaktelaUsername : String := ""
  xDaktelaPassword : String := ""
  xDaktelaAccessToken : String := ""
deriving DecidableEq

/-- `_decode_bearer_token(auth_header)`: `None` for a non-Bearer value or
an unset `JWT_SECRET`; `jwt.decode` exceptions propagate; the middleware's
own claim checks raise `ValueError`. -/
def decodeBearerToken (secret : String) (now : Int) (h : AuthHeaderVal) :
    Except MwError (Option Config) :=
  match h with
  | .noBearer _ => .ok none
  | .bearer t =>
    if secret = "" then .ok none
    else
      match jwtLibDecode secret now t with
      | .error e => .error (.jwtError e)
      | .ok payload =>
        if payload.type ≠ "access_token" then
          .error (.valueError "Invalid token type")
        else if payload.daktelaUrl = "" ∨ payload.daktelaAccessToken = "" then
          .error (.valueError "Token missing required claims")
        else .ok (some (.urlToken payload.daktelaUrl payload.daktelaAccessToken))

/-- Path 2 of `on_call_tool`: the `X-Daktela-*` headers (or stdio
passthrough when none are present). -/
def onCallToolPath2 {R : Type} (allowed : List String) (h : Headers)
    (next : Option Config → Except MwError R) (slot : Option Config) :
    Except MwError R × Option Config :=
  if h.xDaktelaUrl = "" ∧ h.xDaktelaUsername = "" ∧ h.xDaktelaPassword = "" ∧
      h.xDaktelaAccessToken = "" then
    (next slot, slot)
  else if h.xDaktelaUrl = "" then
    (.error (.valueError "X-Daktela-Url header is required"), slot)
  else
    match validateUrl allowed h.xDaktelaUrl with
    | .error e => (.error (.valueError e), slot)
    | .ok url =>
      if h.xDaktelaUsername ≠ "" ∧ h.xDaktelaPassword ≠ "" then
        (next (some (.userPass url h.xDaktelaUsername h.xDaktelaPassword)), slot)
      else if h.xDaktelaAccessToken ≠ "" then
        (next (some (.urlToken url h.xDaktelaAccessToken)), slot)
      else
        (.error (.valueError ("Either X-Daktela-Username + X-Daktela-Password or " ++
          "X-Daktela-Access-Token header is required")), slot)

/-- `DaktelaAuthMiddleware.on_call_tool`: one inbound call.  Returns the
call's result together with the slot value after the call. -/
def onCallTool {R : Type} (secret : String) (now : Int) (allowed : List String)
    (h : Headers) (next : Option Config → Except MwError R) (slot : Option Config) :
    Except MwError R × Option Config :=
  match h.authorization with
  | .bearer t =>
    match decodeBearerToken secret now (.bearer t) with
    | .error e => (.error e, slot)
    | .ok (some cfg) => (next (some cfg), slot)
    | .ok none => onCallToolPath2 allowed h next slot
  | .noBearer _ => onCallToolPath2 allowed h next slot

/-- `get_config()` (`config.py`): the ContextVar slot first, then the
environment fallback (blocked under the `streamable-http` transport). -/
def getConfig (slot : Option Config)
    (transport daktelaUrlEnv usernameEnv passwordEnv tokenEnv : String) :
    Except MwError Config :=
  match slot with
  | some c => .ok c
  | none =>
    if transport = "streamable-http" then
      .error (.valueError ("Daktela credentials must be provided via HTTP headers " ++
        "(X-Daktela-Url, X-Daktela-Username/Password or X-Daktela-Access-Token)"))
    else if daktelaUrlEnv = "" then
      .error (.valueError "DAKTELA_URL environment variable is required")
    else
      let url := pyRstripSlash daktelaUrlEnv
      if usernameEnv ≠ "" ∧ passwordEnv ≠ "" then
        .ok (.userPass url usernameEnv passwordEnv)
      else if tokenEnv ≠ "" then
        .ok (.urlToken url tokenEnv)
      else
        .error (.valueError ("Either DAKTELA_USERNAME + DAKTELA_PASSWORD or " ++
          "DAKTELA_ACCESS_TOKEN environment variables are required"))

/-! ## Derived resolution view of the middleware (used to state C1) -/

/-- The per-request credential Path-2 resolution, without running `next`:
`.ok none` is stdio passthrough, `.ok (some c)` installs `c`, `.error`
aborts the call before anything is installed. -/
def resolvePath2 (allowed : List String) (h : Headers) : Except MwError (Option Config) :=
  if h.xDaktelaUrl = "" ∧ h.xDaktelaUsername = "" ∧ h.xDaktelaPassword = "" ∧
      h.xDaktelaAccessToken = "" then
    .ok none
  else if h.xDaktelaUrl = "" then
    .error (.valueError "X-Daktela-Url header is required")
  else
    match validateUrl allowed h.xDaktelaUrl with
    | .error e => .error (.valueError e)
    | .ok url =>
      if h.xDaktelaUsername ≠ "" ∧ h.xDaktelaPassword ≠ "" then
        .ok (some (.userPass url h.xDaktelaUsername h.xDaktelaPassword))
      else if h.xDaktelaAccessToken ≠ "" then
        .ok (some (.urlToken url h.xDaktelaAccessToken))
      else
        .error (.valueError ("Either X-Daktela-Username + X-Daktela-Password or " ++
          "X-Daktela-Access-Token header is required"))

/-- The full per-request credential resolution of `on_call_tool`. -/
def resolveRequestConfig (secret : String) (now : Int) (allowed : List String)
    (h : Headers) : Except MwError (Option Config) :=
  match h.authorization with
  | .bearer t =>
    match decodeBearerToken secret now (.bearer t) with
    | .error e => .error e
    | .ok (some cfg) => .ok (some cfg)
    | .ok none => resolvePath2 allowed h
  | .noBearer _ => resolvePath2 allowed h

/-- Whether a token-endpoint outcome is a successful issuance. -/
def isIssuedResp : Except OAuthFatal TokenResp → Bool
  | .ok (.issued _ _ _) => true
  | _ => false

/-! ## Concrete fixtures used in counterexamples and witnesses -/

/-- An auth-code claim set as `handle_authorize` mints it. -/
def sampleAuthCodeClaims : Claims :=
  { type := "auth_code", exp := 100, codeChallenge := "v",
    redirectUri := "https://client/cb", daktelaUrl := "https://x.daktela.com",
    daktelaAccessToken := "at", daktelaAccessExp := 90,
    daktelaUsername := "u", daktelaPassword := "p" }

/-- An exchange form whose verifier digest matches the stored challenge
(under the identity digest) but whose `redirect_uri` differs from the one
stored in the code. -/
def mismatchedRedirectForm : TokenForm :=
  { grantType := "authorization_code",
    code := some (.signed sampleAuthCodeClaims "sec"),
    codeVerifier := "v", redirectUri := "https://evil/cb" }

/-- A refresh-token claim set as `_issue_token_response` mints it. -/
def sampleRefreshClaims : Claims :=
  { type := "refresh_token", exp := 2000, daktelaUrl := "https://x.daktela.com",
    daktelaUsername := "u", daktelaPassword := "p" }

/-- A refresh-grant form carrying that refresh token. -/
def sampleRefreshForm : TokenForm :=
  { grantType := "refresh_token", refreshToken := some (.signed sampleRefreshClaims "sec") }

/-- An exchange form whose verifier digest matches the stored challenge
(under the identity digest) and whose `redirect_uri` equals the stored
one. -/
def matchedRedirectForm : TokenForm :=
  { grantType := "authorization_code",
    code := some (.signed sampleAuthCodeClaims "sec"),
    codeVerifier := "v", redirectUri := "https://client/cb" }

/-- A complete authorization-form submission for `https://x.daktela.com`. -/
def sampleAuthorizeForm : AuthorizeForm :=
  { daktelaUrl := "https://x.daktela.com", username := "u", password := "p",
    redirectUri := "https://client/cb", clientId := "cid", codeChallenge := "v",
    codeChallengeMethod := "S256", state := "st" }

/-- The auth-code claim set `handle_authorize` mints at time 1000 for that
form when the backend expiry string fails to parse (fallback expiry
`now + 3600`). -/
def fallbackAuthCodeClaims : Claims :=
  { type := "auth_code", daktelaUrl := "https://x.daktela.com",
    daktelaAccessToken := "newtok", daktelaAccessExp := 4600,
    daktelaUsername := "u", daktelaPassword := "p", codeChallenge := "v",
    clientId := "cid", redirectUri := "https://client/cb", exp := 1300 }

/-- An access-token claim set already expired at time 100. -/
def expiredAccessClaims : Claims :=
  { type := "access_token", daktelaUrl := "https://a.daktela.com",
    daktelaAccessToken := "t", exp := 50 }

/-- Headers presenting that expired bearer token next to valid
`X-Daktela-*` fallback headers. -/
def expiredBearerHeaders : Headers :=
  { authorization := .bearer (.signed expiredAccessClaims "s"),
    xDaktelaUrl := "https://b.daktela.com", xDaktelaAccessToken := "zz" }

end McpDaktela

namespace McpDaktela

/-! ## Helper lemmas -/

theorem dropWhile_head_false {p : Char → Bool} :
    ∀ (l : List Char) (b : Char) (bs : List Char), l.dropWhile p = b :: bs → p b = false := by
  intro l
  induction l with
  | nil => intro b bs h; cases h
  | cons x xs ih =>
    intro b bs h
    by_cases hx : p x
    · exact ih b bs (by simpa [List.dropWhile, hx] using h)
    · simp only [List.dropWhile, hx] at h
      cases h
      simpa using hx

theorem pyEndsWith_pyRstripSlash (s : String) :
    pyEndsWith (pyRstripSlash s) "/" = false := by
  unfold pyEndsWith pyRstripSlash
  have hlist :
      (String.mk ((s.toList.reverse.dropWhile (fun c => decide (c = '/'))).reverse)).toList =
        (s.toList.reverse.dropWhile (fun c => decide (c = '/'))).reverse := rfl
  rw [hlist, List.reverse_reverse]
  cases hd : s.toList.reverse.dropWhile (fun c => decide (c = '/')) with
  | nil => rfl
  | cons b bs =>
    have hb : decide (b = '/') = false := dropWhile_head_false _ _ _ hd
    have hbne : b ≠ '/' := of_decide_eq_false hb
    show List.isPrefixOf ['/'] (b :: bs) = false
    simp [List.isPrefixOf, Ne.symm hbne]

theorem decodeJwt_ok_secret_ne {secret : String} {now : Int} {et : String} {t : TokenStr}
    {p : Claims} (h : decodeJwt secret now et t = .ok p) : secret ≠ "" := by
  intro he
  rw [he] at h
  simp [decodeJwt] at h

theorem issueTokenResponse_eq {secret : String} (hs : secret ≠ "") (now : Int)
    (daktelaUrl daktelaAccessToken : String) (accessExp : Int) (username password : String) :
    issueTokenResponse secret now daktelaUrl daktelaAccessToken accessExp username password =
      .ok (.issued
        (.signed { type := "access_token", daktelaUrl := daktelaUrl,
                   daktelaAccessToken := daktelaAccessToken, exp := accessExp } secret)
        (.signed { type := "refresh_token", daktelaUrl := daktelaUrl,
                   daktelaUsername := username, daktelaPassword := password,
                   exp := now + refreshTokenLifetime } secret)
        (max 0 (accessExp - now))) := by
  simp [issueTokenResponse, signJwt, hs]

theorem validateUrl_ok_inv (allowed : List String) (url v : String)
    (h : validateUrl allowed url = .ok v) :
    urlScheme (stripUrl url) = "https" ∧
    pyLower (urlHostname (stripUrl url)) ≠ "" ∧
    isIpLikeHostname (pyLower (urlHostname (stripUrl url))) = false ∧
    hostnameAllowed allowed (pyLower (urlHostname (stripUrl url))) = true ∧
    v = stripUrl url := by
  simp only [validateUrl] at h
  by_cases h1 : urlScheme (stripUrl url) ≠ "https"
  · rw [if_pos h1] at h; cases h
  · rw [if_neg h1] at h
    by_cases h2 : pyLower (urlHostname (stripUrl url)) = ""
    · rw [if_pos h2] at h; cases h
    · rw [if_neg h2] at h
      by_cases h3 : isIpLikeHostname (pyLower (urlHostname (stripUrl url))) = true
      · rw [if_pos h3] at h; cases h
      · rw [if_neg h3] at h
        by_cases h4 : hostnameAllowed allowed (pyLower (urlHostname (stripUrl url))) = true
        · rw [if_pos h4] at h
          cases h
          exact ⟨not_not.mp h1, h2, by simpa using h3, h4, rfl⟩
        · rw [if_neg h4] at h; cases h

/-! ## Claim theorems -/

/-- C6: the validator rejects, in the source's order, a non-`https` scheme
(with the scheme-specific message), an absent/empty hostname, a literal
IPv4 (all digits and dots) or IPv6 (contains a colon) hostname — the IP
rejection holding for every allowed-domain set — and a hostname neither
equal to nor a subdomain of an allowed entry (with the message naming the
allowed suffixes); whenever any of these conditions holds the URL is never
accepted. -/
theorem c6_validator_rejections (allowed : List String) (url : String) :
    (urlScheme (stripUrl url) ≠ "https" →
      validateUrl allowed url = .error (schemeErrorMsg (urlScheme (stripUrl url)))) ∧
    (urlScheme (stripUrl url) = "https" → pyLower (urlHostname (stripUrl url)) = "" →
      validateUrl allowed url = .error "X-Daktela-Url has no hostname") ∧
    (urlScheme (stripUrl url) = "https" → pyLower (urlHostname (stripUrl url)) ≠ "" →
      isIpLikeHostname (pyLower (urlHostname (stripUrl url))) = true →
      validateUrl allowed url =
        .error "X-Daktela-Url must use a domain name, not an IP address") ∧
    (urlScheme (stripUrl url) = "https" → pyLower (urlHostname (stripUrl url)) ≠ "" →
      isIpLikeHostname (pyLower (urlHostname (stripUrl url))) = false →
      hostnameAllowed allowed (pyLower (urlHostname (stripUrl url))) = false →
      validateUrl allowed url =
        .error (notAllowedMsg allowed (pyLower (urlHostname (stripUrl url))))) ∧
    ((urlScheme (stripUrl url) ≠ "https" ∨ pyLower (urlHostname (stripUrl url)) = "" ∨
      isIpLikeHostname (pyLower (urlHostname (stripUrl url))) = true ∨
      hostnameAllowed allowed (pyLower (urlHostname (stripUrl url))) = false) →
      ∀ v, validateUrl allowed url ≠ .ok v) := by
  refine ⟨?_, ?_, ?_, ?_, ?_⟩
  · intro h1
    simp only [validateUrl]
    rw [if_pos h1]
  · intro h1 h2
    simp only [validateUrl]
    rw [if_neg (not_not_intro h1), if_pos h2]
  · intro h1 h2 h3
    simp only [validateUrl]
    rw [if_neg (not_not_intro h1), if_neg h2, if_pos h3]
  · intro h1 h2 h3 h4
    simp only [validateUrl]
    rw [if_neg (not_not_intro h1), if_neg h2, if_neg (by simp [h3]),
      if_neg (by simp [h4])]
  · intro hdisj v hok
    obtain ⟨g1, g2, g3, g4, -⟩ := validateUrl_ok_inv allowed url v hok
    rcases hdisj with h | h | h | h
    · exact h g1
    · exact g2 h
    · rw [g3] at h; cases h
    · rw [g4] at h; cases h

/-- C6 witness: concrete rejections — an `http` URL, a URL without a
hostname, the metadata IPv4 and loopback IPv6 literals (the latter two
even when the allowed-domain set lists them), and a non-subdomain host
with the error naming `*.daktela.com`. -/
theorem c6_validator_rejections_witness :
    validateUrl ["daktela.com"] "http://a.daktela.com" =
      .error (schemeErrorMsg "http") ∧
    validateUrl ["daktela.com"] "https:nohost" =
      .error "X-Daktela-Url has no hostname" ∧
    validateUrl ["169.254.169.254"] "https://169.254.169.254" =
      .error "X-Daktela-Url must use a domain name, not an IP address" ∧
    validateUrl ["::1"] "https://[::1]" =
      .error "X-Daktela-Url must use a domain name, not an IP address" ∧
    validateUrl ["daktela.com"] "https://notdaktela.com" =
      .error (notAllowedMsg ["daktela.com"] "notdaktela.com") :=
  ⟨(c6_validator_rejections ["daktela.com"] "http://a.daktela.com").1 (by decide),
   (c6_validator_rejections ["daktela.com"] "https:nohost").2.1 (by decide) (by decide),
   (c6_validator_rejections ["169.254.169.254"] "https://169.254.169.254").2.2.1
     (by decide) (by decide) (by decide),
   (c6_validator_rejections ["::1"] "https://[::1]").2.2.1
     (by decide) (by decide) (by decide),
   (c6_validator_rejections ["daktela.com"] "https://notdaktela.com").2.2.2.1
     (by decide) (by decide) (by decide) (by decide)⟩

/-- C7 (counterexample): the validator returns the stripped input, not a
reconstruction from components — a URL carrying a query string is accepted
and returned with the query intact, so the returned value is not of the
form scheme + host + path. -/
theorem c7_normalization_counterexample :
    validateUrl defaultAllowedDomains "https://sub.daktela.com?a=b" =
      .ok "https://sub.daktela.com?a=b" ∧
    urlScheme "https://sub.daktela.com?a=b" ++ "://" ++
        urlHostname "https://sub.daktela.com?a=b" ++
        urlPath "https://sub.daktela.com?a=b" ≠ "https://sub.daktela.com?a=b" := by
  decide

/-- C7 (amended): every accepted URL is returned as the input trimmed of
surrounding whitespace and trailing slashes (so it never ends in a slash;
query/fragment components are preserved rather than stripped); with the
default allowed-domain set, `https://sub.daktela.com///` is accepted and
normalized to `https://sub.daktela.com` while `https://notdaktela.com` is
rejected as not allowed. -/
theorem c7_validator_normalization (allowed : List String) (url : String) :
    (∀ v, validateUrl allowed url = .ok v →
      v = stripUrl url ∧ pyEndsWith v "/" = false) ∧
    validateUrl defaultAllowedDomains "https://sub.daktela.com///" =
      .ok "https://sub.daktela.com" ∧
    validateUrl defaultAllowedDomains "https://notdaktela.com" =
      .error (notAllowedMsg defaultAllowedDomains "notdaktela.com") := by
  refine ⟨?_, by decide, by decide⟩
  intro v hok
  obtain ⟨-, -, -, -, hv⟩ := validateUrl_ok_inv allowed url v hok
  subst hv
  exact ⟨rfl, pyEndsWith_pyRstripSlash (pyStrip url)⟩

/-- C7 witness: a concrete accepted URL comes back stripped of its
trailing slash. -/
theorem c7_validator_normalization_witness :
    "https://sub.daktela.com/x" = stripUrl "https://sub.daktela.com/x/" ∧
    pyEndsWith "https://sub.daktela.com/x" "/" = false :=
  (c7_validator_normalization ["daktela.com"] "https://sub.daktela.com/x/").1
    "https://sub.daktela.com/x" (by decide)

/-- C2 (counterexample): a successfully decoded code whose verifier digest
matches the stored challenge is still refused when the submitted
`redirect_uri` differs from the one stored in the code, so "exchange
succeeds iff the digest matches" fails in the if direction. -/
theorem c2_pkce_iff_counterexample :
    decodeJwt "sec" 0 "auth_code" (.signed sampleAuthCodeClaims "sec") =
      .ok sampleAuthCodeClaims ∧
    (fun s => s) mismatchedRedirectForm.codeVerifier = sampleAuthCodeClaims.codeChallenge ∧
    handleAuthCodeExchange (fun s => s) "sec" 0 mismatchedRedirectForm =
      .ok (.oauthError "invalid_grant" "redirect_uri mismatch") ∧
    isIssuedResp (handleAuthCodeExchange (fun s => s) "sec" 0 mismatchedRedirectForm) =
      false := by
  decide

/-- C2 (amended): for an authorization-code grant whose code decodes
successfully (verifier present), the exchange issues tokens iff the PKCE
digest of the submitted verifier equals the stored challenge AND any
submitted `redirect_uri` equals the one stored in the code; any verifier
whose digest does not match yields `invalid_grant` with the PKCE-specific
message and no tokens. -/
theorem c2_pkce_exchange_iff (digest : String → String) (secret : String) (now : Int)
    (form : TokenForm) (code : TokenStr) (payload : Claims) :
    form.code = some code → form.codeVerifier ≠ "" →
    decodeJwt secret now "auth_code" code = .ok payload →
    (isIssuedResp (handleAuthCodeExchange digest secret now form) = true ↔
      (digest form.codeVerifier = payload.codeChallenge ∧
       (form.redirectUri = "" ∨ form.redirectUri = payload.redirectUri))) ∧
    (digest form.codeVerifier ≠ payload.codeChallenge →
      handleAuthCodeExchange digest secret now form =
        .ok (.oauthError "invalid_grant" "PKCE verification failed")) := by
  intro hc hv hd
  have hsec := decodeJwt_ok_secret_ne hd
  have hshape : handleAuthCodeExchange digest secret now form =
      (if digest form.codeVerifier ≠ payload.codeChallenge then
        .ok (.oauthError "invalid_grant" "PKCE verification failed")
      else if form.redirectUri ≠ "" ∧ form.redirectUri ≠ payload.redirectUri then
        .ok (.oauthError "invalid_grant" "redirect_uri mismatch")
      else
        issueTokenResponse secret now payload.daktelaUrl payload.daktelaAccessToken
          payload.daktelaAccessExp payload.daktelaUsername payload.daktelaPassword) := by
    simp only [handleAuthCodeExchange, hc, if_neg hv, hd]
  rw [hshape]
  by_cases hpk : digest form.codeVerifier = payload.codeChallenge
  · refine ⟨?_, fun hne => absurd hpk hne⟩
    rw [if_neg (not_not_intro hpk)]
    by_cases hr : form.redirectUri ≠ "" ∧ form.redirectUri ≠ payload.redirectUri
    · rw [if_pos hr]
      constructor
      · intro hfalse; cases hfalse
      · rintro ⟨-, hdisj⟩
        rcases hdisj with h1 | h2
        · exact absurd h1 hr.1
        · exact absurd h2 hr.2
    · rw [if_neg hr]
      rw [issueTokenResponse_eq hsec]
      constructor
      · intro _
        refine ⟨hpk, ?_⟩
        rcases not_and_or.mp hr with h1 | h2
        · exact Or.inl (not_not.mp h1)
        · exact Or.inr (not_not.mp h2)
      · intro _; rfl
  · rw [if_pos hpk]
    refine ⟨?_, fun _ => rfl⟩
    constructor
    · intro hfalse; cases hfalse
    · rintro ⟨h1, -⟩; exact absurd h1 hpk

/-- C2 witness: with the matching verifier and the stored `redirect_uri`,
the exchange issues tokens. -/
theorem c2_pkce_exchange_iff_witness :
    isIssuedResp (handleAuthCodeExchange (fun s => s) "sec" 0 matchedRedirectForm) = true :=
  ((c2_pkce_exchange_iff (fun s => s) "sec" 0 matchedRedirectForm
      (.signed sampleAuthCodeClaims "sec") sampleAuthCodeClaims
      rfl (by decide) (by decide)).1).mpr ⟨rfl, Or.inr rfl⟩

/-- C8: a refresh grant whose token decodes but whose embedded credentials
the backend rejects (or whose backend is unreachable) returns
`invalid_grant` carrying the classified reason and mints no tokens. -/
theorem c8_refresh_backend_rejection (secret : String) (now : Int)
    (login : String → String → String → LoginResult) (form : TokenForm)
    (rt : TokenStr) (payload : Claims) (msg : String) :
    form.refreshToken = some rt →
    decodeJwt secret now "refresh_token" rt = .ok payload →
    login payload.daktelaUrl payload.daktelaUsername payload.daktelaPassword =
      .failure msg →
    handleRefresh secret now login form = .ok (.oauthError "invalid_grant" msg) ∧
    isIssuedResp (handleRefresh secret now login form) = false := by
  intro h1 h2 h3
  have heq : handleRefresh secret now login form =
      .ok (.oauthError "invalid_grant" msg) := by
    simp only [handleRefresh, h1, h2, h3]
  exact ⟨heq, by rw [heq]; rfl⟩

/-- C8 witness: a backend 401 is classified as "Invalid username or
password" and surfaces as `invalid_grant` with that reason, no tokens. -/
theorem c8_refresh_backend_rejection_witness :
    handleRefresh "sec" 1000 (fun _ _ _ => daktelaLogin (.response 401 "" ""))
        sampleRefreshForm =
      .ok (.oauthError "invalid_grant" "Invalid username or password") ∧
    isIssuedResp (handleRefresh "sec" 1000
        (fun _ _ _ => daktelaLogin (.response 401 "" "")) sampleRefreshForm) = false :=
  c8_refresh_backend_rejection "sec" 1000
    (fun _ _ _ => daktelaLogin (.response 401 "" "")) sampleRefreshForm
    (.signed sampleRefreshClaims "sec") sampleRefreshClaims
    "Invalid username or password" rfl (by decide) (by decide)

/-- C5 (counterexample): the round-trip half of the claim quantifies over
every claim set, but a claim set whose `exp` is already in the past signs
fine and then fails verification with `ExpiredSignatureError` instead of
returning the original claims. -/
theorem c5_roundtrip_counterexample :
    signJwt "s" { type := "access_token", exp := 0 } =
      .ok (.signed { type := "access_token", exp := 0 } "s") ∧
    decodeJwt "s" 100 "access_token" (.signed { type := "access_token", exp := 0 } "s") =
      .error (.lib .expired) ∧
    decodeJwt "s" 100 "access_token" (.signed { type := "access_token", exp := 0 } "s") ≠
      .ok { type := "access_token", exp := 0 } := by
  refine ⟨rfl, rfl, ?_⟩
  decide

/-- C5 (amended): with the signing secret configured and the claim set's
expiry still in the future at verification time, `sign` then `verify` with
the same expected type returns the original claims unchanged; and
verifying any signed token whose `type` claim differs from the expected
type never yields claims, whatever secret or time is used. -/
theorem c5_sign_verify_roundtrip (secret : String) (now : Int) (expectedType : String)
    (c : Claims) :
    (secret ≠ "" → c.type = expectedType → now < c.exp →
      signJwt secret c = .ok (.signed c secret) ∧
      decodeJwt secret now expectedType (.signed c secret) = .ok c) ∧
    (c.type ≠ expectedType → ∀ (s2 : String) (p : Claims),
      decodeJwt s2 now expectedType (.signed c secret) ≠ .ok p) := by
  constructor
  · intro hs hty hexp
    refine ⟨by simp [signJwt, hs], ?_⟩
    simp [decodeJwt, jwtLibDecode, hs, hty, not_le.mpr hexp]
  · intro hty s2 p h
    by_cases hs : s2 = ""
    · simp [decodeJwt, hs] at h
    · by_cases hsec : secret = s2
      · by_cases hexp : c.exp ≤ now
        · simp [decodeJwt, jwtLibDecode, hs, hsec, hexp] at h
        · simp [decodeJwt, jwtLibDecode, hs, hsec, hexp, hty] at h
      · simp [decodeJwt, jwtLibDecode, hs, hsec] at h

/-- C5 witness: a live access-token claim set round-trips; a refresh-token
claim set is never accepted where an access token is expected. -/
theorem c5_sign_verify_roundtrip_witness :
    (signJwt "s" { type := "access_token", exp := 100 } =
        .ok (.signed { type := "access_token", exp := 100 } "s") ∧
      decodeJwt "s" 0 "access_token" (.signed { type := "access_token", exp := 100 } "s") =
        .ok { type := "access_token", exp := 100 }) ∧
    decodeJwt "s" 0 "access_token" (.signed { type := "refresh_token", exp := 100 } "s") ≠
      .ok { type := "refresh_token", exp := 100 } :=
  ⟨(c5_sign_verify_roundtrip "s" 0 "access_token"
      { type := "access_token", exp := 100 }).1 (by decide) rfl (by decide),
   (c5_sign_verify_roundtrip "s" 0 "access_token"
      { type := "refresh_token", exp := 100 }).2 (by decide) "s"
      { type := "refresh_token", exp := 100 }⟩

/-- C9: every successful issuance reports `expires_in` as the (clamped at
zero) number of seconds from the moment of issuance to the access token's
real expiry — the backend session expiry carried into the access token's
`exp` claim — not a fixed constant. -/
theorem c9_expires_in_tracks_real_expiry (secret : String) (now : Int)
    (daktelaUrl daktelaAccessToken : String) (accessExp : Int) (username password : String) :
    secret ≠ "" →
    issueTokenResponse secret now daktelaUrl daktelaAccessToken accessExp username password =
      .ok (.issued
        (.signed { type := "access_token", daktelaUrl := daktelaUrl,
                   daktelaAccessToken := daktelaAccessToken, exp := accessExp } secret)
        (.signed { type := "refresh_token", daktelaUrl := daktelaUrl,
                   daktelaUsername := username, daktelaPassword := password,
                   exp := now + refreshTokenLifetime } secret)
        (max 0 (accessExp - now))) :=
  fun hs => issueTokenResponse_eq hs now daktelaUrl daktelaAccessToken accessExp
    username password

/-- C9 witness: issuing at time 1000 for a session expiring at 8200 yields
`expires_in = 7200` and an access token whose `exp` claim is 8200. -/
theorem c9_expires_in_tracks_real_expiry_witness :
    issueTokenResponse "s" 1000 "https://x.daktela.com" "at" 8200 "u" "p" =
      .ok (.issued
        (.signed { type := "access_token", daktelaUrl := "https://x.daktela.com",
                   daktelaAccessToken := "at", exp := 8200 } "s")
        (.signed { type := "refresh_token", daktelaUrl := "https://x.daktela.com",
                   daktelaUsername := "u", daktelaPassword := "p",
                   exp := 1000 + refreshTokenLifetime } "s")
        (max 0 (8200 - 1000))) :=
  c9_expires_in_tracks_real_expiry "s" 1000 "https://x.daktela.com" "at" 8200 "u" "p"
    (by decide)

/-- C10: with the signing secret unset (empty), a request whose
`Authorization` header starts with `Bearer ` has its bearer decode return
no config instead of failing, and the middleware behaves exactly as it
would with no bearer header at all: it falls through to the `X-Daktela-*`
header path (or stdio passthrough). -/
theorem c10_empty_secret_bearer_falls_through {R : Type} (now : Int)
    (allowed : List String) (tok : TokenStr) (h : Headers)
    (next : Option Config → Except MwError R) (slot : Option Config) :
    decodeBearerToken "" now (.bearer tok) = .ok none ∧
    onCallTool "" now allowed { h with authorization := .bearer tok } next slot =
      onCallTool "" now allowed { h with authorization := .noBearer "" } next slot :=
  ⟨rfl, rfl⟩

/-- C4: when the bearer decode step raises — in particular for an expired
access token — the middleware propagates that error as the call's outcome:
the downstream tool is never invoked, the `X-Daktela-*` headers and static
configuration are never consulted, and the context slot is untouched. -/
theorem c4_invalid_bearer_fails_call {R : Type} (secret : String) (now : Int)
    (allowed : List String) (h : Headers) (tok : TokenStr)
    (next : Option Config → Except MwError R) (slot : Option Config) :
    h.authorization = .bearer tok →
    (∀ e, decodeBearerToken secret now (.bearer tok) = .error e →
      onCallTool secret now allowed h next slot = (.error e, slot)) ∧
    (∀ c : Claims, tok = .signed c secret → secret ≠ "" → c.exp ≤ now →
      onCallTool secret now allowed h next slot =
        (.error (.jwtError .expired), slot)) := by
  intro hA
  have hbase : ∀ e, decodeBearerToken secret now (.bearer tok) = .error e →
      onCallTool secret now allowed h next slot = (.error e, slot) := by
    intro e he
    simp only [onCallTool, hA, he]
  refine ⟨hbase, ?_⟩
  intro c htok hsec hexp
  refine hbase _ ?_
  subst htok
  simp [decodeBearerToken, jwtLibDecode, hsec, hexp]

/-- C4 witness: an expired bearer token presented alongside valid
`X-Daktela-*` headers still fails the call with the expiry error — no
fallback. -/
theorem c4_invalid_bearer_fails_call_witness :
    onCallTool "s" 100 ["daktela.com"] expiredBearerHeaders
      (fun _ => (.ok 0 : Except MwError Nat)) none =
      (.error (.jwtError .expired), none) :=
  (c4_invalid_bearer_fails_call "s" 100 ["daktela.com"] expiredBearerHeaders
      (.signed expiredAccessClaims "s")
      (fun _ => (.ok 0 : Except MwError Nat)) none rfl).2
    expiredAccessClaims rfl (by decide) (by decide)

/-- C3 (code bug): the source reads the backend's naive expiry string as
UTC unconditionally, but the repository's own test
(`test_parse_daktela_datetime`) asserts `1771108457` for
`"2026-02-14 23:34:17"` — the instant obtained by reading the string in
the backend's configured timezone (Europe/Prague, UTC+1 in February), as
the claim requires — while the code yields `1771112057`.  The fallback
half of the claim does hold: an unparseable expiry string makes both the
refresh handler and the authorize handler use `now + 3600` instead of
erroring. -/
theorem c3_expiry_timezone_code_bug :
    parseDaktelaDatetime "2026-02-14 23:34:17" = .ok 1771112057 ∧
    specParseInConfiguredTz 3600 "2026-02-14 23:34:17" = .ok 1771108457 ∧
    ((1771112057 : Int) = 1771108457 → False) ∧
    handleRefresh "sec" 1000 (fun _ _ _ => .success "newtok" "not a timestamp")
        sampleRefreshForm =
      issueTokenResponse "sec" 1000 "https://x.daktela.com" "newtok" (1000 + 3600)
        "u" "p" ∧
    handleAuthorizePost ["daktela.com"] "sec" 1000
        (fun _ _ _ => .success "newtok" "not a timestamp") sampleAuthorizeForm =
      .ok (.redirect (.signed fallbackAuthCodeClaims "sec") "https://client/cb" "st") := by
  refine ⟨by decide, by decide, by decide, by decide, by decide⟩

/-- C1: the request credential config resolved from one call's headers is
exactly what that call's downstream logic observes (`next` receives
`some c` when a config is installed, the untouched ambient slot on stdio
passthrough, and is never invoked when resolution errors), and the slot
always comes back equal to its entry value — on success and on error alike
— so with the task-local slot starting at `none`, nothing installed for
this call is observable before or after it, and `get_config` hands any
installed config through unchanged. -/
theorem c1_request_config_isolation {R : Type} (secret : String) (now : Int)
    (allowed : List String) (h : Headers) (next : Option Config → Except MwError R)
    (slot : Option Config) :
    onCallTool secret now allowed h next slot =
      ((match resolveRequestConfig secret now allowed h with
        | .error e => .error e
        | .ok none => next slot
        | .ok (some c) => next (some c)), slot) ∧
    (∀ (c : Config) (transport urlEnv userEnv passEnv tokenEnv : String),
      getConfig (some c) transport urlEnv userEnv passEnv tokenEnv = .ok c) := by
  constructor
  · have hpath2 : onCallToolPath2 allowed h next slot =
        ((match resolvePath2 allowed h with
          | .error e => .error e
          | .ok none => next slot
          | .ok (some c) => next (some c)), slot) := by
      unfold onCallToolPath2 resolvePath2
      by_cases h1 : h.xDaktelaUrl = "" ∧ h.xDaktelaUsername = "" ∧
          h.xDaktelaPassword = "" ∧ h.xDaktelaAccessToken = ""
      · rw [if_pos h1, if_pos h1]
      · rw [if_neg h1, if_neg h1]
        by_cases h2 : h.xDaktelaUrl = ""
        · rw [if_pos h2, if_pos h2]
        · rw [if_neg h2, if_neg h2]
          cases hv : validateUrl allowed h.xDaktelaUrl with
          | error e => rfl
          | ok u =>
            dsimp only
            by_cases h3 : h.xDaktelaUsername ≠ "" ∧ h.xDaktelaPassword ≠ ""
            · rw [if_pos h3, if_pos h3]
            · rw [if_neg h3, if_neg h3]
              by_cases h4 : h.xDaktelaAccessToken ≠ ""
              · rw [if_pos h4, if_pos h4]
              · rw [if_neg h4, if_neg h4]
    cases hA : h.authorization with
    | bearer t =>
      cases hd : decodeBearerToken secret now (.bearer t) with
      | error e => simp only [onCallTool, resolveRequestConfig, hA, hd]
      | ok oc =>
        cases oc with
        | none =>
          simp only [onCallTool, resolveRequestConfig, hA, hd]
          exact hpath2
        | some cfg => simp only [onCallTool, resolveRequestConfig, hA, hd]
    | noBearer raw =>
      simp only [onCallTool, resolveRequestConfig, hA]
      exact hpath2
  · intro c transport u1 u2 u3 u4
    rfl

end McpDaktela
